import Mathlib

/-!
Shallow embedding of the duel-record normalization and aggregation logic of
`src/index.js` (the Pistols at Dawn duel-history tracker page), together with
theorems settling the spec's claims about it.

The embedded fragment is the pure core of `HomePage`:
  * the win/loss tally over the fetched duel list (lines 61-62),
  * the per-duel viewpoint-relative projection computed inside
    `duels.map` (lines 112-133), including the `isPlayer1` resolution,
    the opponent label fallback, the outcome label, and the
    `join(', ')` rendering of the step sequences,
  * the `searchDuels` success / error state transition (lines 34-58).

JavaScript-specific behaviors are modelled explicitly:
  * `x?.toLowerCase()` on a null/absent value yields `undefined`, which is
    never `===`-equal to a string;
  * `x && y` returns `x` when `x` is falsy; the empty string is falsy;
  * `x || y` returns `y` when `x` is falsy (absent or empty username);
  * calling `.join` on an absent (undefined) array throws a TypeError,
    modelled with `Except`.
-/

/-- JS `String.prototype.toLowerCase()`, modelled character-wise over the
string's character list (ASCII case folding, which is all that matters for
hex addresses and the labels in this program).  Defined structurally so
that concrete instances evaluate. -/
def jsToLower (s : String) : String :=
  String.mk (s.data.map Char.toLower)

/-- A participant of a duel, as returned by the GraphQL query:
`player1 { address, username }`.  The address is the identity string;
the username is optional (may be absent in the payload). -/
structure Player where
  address : String
  username : Option String
deriving DecidableEq, Repr

/-- A raw duel record, mirroring the fields selected by `DUELS_QUERY` in
`src/index.js`: id, the two players, the four step sequences and the
winner address.  Step sequences may be absent (`none`), and `winner`
is optional (`none` models a null/absent winner). -/
structure Duel where
  id : String
  player1 : Player
  player2 : Player
  shotStepsP1 : Option (List String)
  shotStepsP2 : Option (List String)
  dodgeStepsP1 : Option (List String)
  dodgeStepsP2 : Option (List String)
  winner : Option String
deriving DecidableEq, Repr

/-- Line 61 of `src/index.js`:
`d.winner?.toLowerCase() === player.toLowerCase()`.
Optional chaining yields `undefined` for an absent winner, and
`undefined === <string>` is false, hence the `none` branch. -/
def isWin (d : Duel) (player : String) : Bool :=
  match d.winner with
  | none => false
  | some w => jsToLower w == jsToLower player

/-- Line 61: `const wins = duels.filter(d => d.winner?.toLowerCase() ===
player.toLowerCase()).length`. -/
def wins (duels : List Duel) (player : String) : Nat :=
  (duels.filter (fun d => isWin d player)).length

/-- Line 62: `const losses = duels.length - wins`. -/
def losses (duels : List Duel) (player : String) : Nat :=
  duels.length - wins duels player

/-- Line 113: `const isPlayer1 = duel.player1.address.toLowerCase() ===
player.toLowerCase()`.  This is the whole of viewpoint resolution in the
source: a non-match is not distinguished further (there is no
"not a participant" case; `!isPlayer1` is treated as the player2 side). -/
def isPlayer1 (d : Duel) (player : String) : Bool :=
  jsToLower d.player1.address == jsToLower player

/-- Lines 118-119: `p.username || p.address`.  The JS `||` falls back on
any falsy left operand, so both an absent and an empty username fall back
to the address. -/
def labelOf (p : Player) : String :=
  match p.username with
  | none => p.address
  | some u => if u = "" then p.address else u

/-- The three-valued outcome displayed in the Winner column. -/
inductive Outcome where
  | You
  | Opponent
  | Undetermined
deriving DecidableEq, Repr

/-- Lines 120-121: `const winner = duel.winner && (duel.winner.toLowerCase()
=== player.toLowerCase() ? 'You' : 'Opponent')`.  When `duel.winner` is
falsy (null/absent, or the empty string) the `&&` short-circuits and the
cell renders blank, i.e. `Undetermined`.  Otherwise the winner address is
compared (case-insensitively) directly to the viewpoint. -/
def outcomeOf (winner : Option String) (player : String) : Outcome :=
  match winner with
  | none => Outcome.Undetermined
  | some w =>
    if w = "" then Outcome.Undetermined
    else if jsToLower w == jsToLower player then Outcome.You
    else Outcome.Opponent

/-- The viewpoint-relative projection of one duel record: the data computed
by lines 113-121 of `src/index.js`, before any string rendering. -/
structure Projection where
  duelId : String
  opponentLabel : String
  yourShots : Option (List String)
  yourDodges : Option (List String)
  oppShots : Option (List String)
  oppDodges : Option (List String)
  outcome : Outcome
deriving DecidableEq, Repr

/-- Lines 113-121: the per-duel field selection inside `duels.map`.
`isPlayer1` selects the P1-as-you assignment; any non-match (including a
viewpoint that is not a participant at all) selects the P2-as-you
assignment.  The outcome is computed outside the conditional, directly
from `duel.winner` and the viewpoint. -/
def projectRow (d : Duel) (player : String) : Projection :=
  if isPlayer1 d player then
    { duelId := d.id
      opponentLabel := labelOf d.player2
      yourShots := d.shotStepsP1
      yourDodges := d.dodgeStepsP1
      oppShots := d.shotStepsP2
      oppDodges := d.dodgeStepsP2
      outcome := outcomeOf d.winner player }
  else
    { duelId := d.id
      opponentLabel := labelOf d.player1
      yourShots := d.shotStepsP2
      yourDodges := d.dodgeStepsP2
      oppShots := d.shotStepsP1
      oppDodges := d.dodgeStepsP1
      outcome := outcomeOf d.winner player }

/-- Lines 112-133 as a whole: `duels.map(duel => ...)`, applied to every
record in input order. -/
def projectAll (duels : List Duel) (player : String) : List Projection :=
  duels.map (fun d => projectRow d player)

/-- The error message a JS engine raises for `undefined.join(...)`. -/
def joinError : String :=
  "TypeError: Cannot read properties of undefined"

/-- `xs.join(', ')` as used on lines 126-129.  When the step-sequence field
is absent the JS value is `undefined` and the call throws a TypeError;
this is modelled with `Except.error`. -/
def jsJoin : Option (List String) → Except String String
  | none => Except.error joinError
  | some xs => Except.ok (String.intercalate ", " xs)

/-- How the Winner cell renders: `'You'`, `'Opponent'`, or blank for a
falsy `winner` value. -/
def renderOutcome : Outcome → String
  | Outcome.You => "You"
  | Outcome.Opponent => "Opponent"
  | Outcome.Undetermined => ""

/-- One rendered table row (lines 122-131): all cells as display strings. -/
structure RenderedRow where
  duelId : String
  opponentLabel : String
  yourShots : String
  yourDodges : String
  oppShots : String
  oppDodges : String
  winnerCell : String
deriving DecidableEq, Repr

/-- Lines 122-131: rendering one row.  The four `join(', ')` calls throw
when the selected step-sequence field is absent, so rendering is fallible. -/
def renderRow (d : Duel) (player : String) : Except String RenderedRow := do
  let ys ← jsJoin (projectRow d player).yourShots
  let yd ← jsJoin (projectRow d player).yourDodges
  let os ← jsJoin (projectRow d player).oppShots
  let od ← jsJoin (projectRow d player).oppDodges
  pure { duelId := (projectRow d player).duelId
         opponentLabel := (projectRow d player).opponentLabel
         yourShots := ys
         yourDodges := yd
         oppShots := os
         oppDodges := od
         winnerCell := renderOutcome (projectRow d player).outcome }

/-- The result of one fetch attempt in `searchDuels` (lines 34-58): a
successful payload, a structured GraphQL error payload (`json.errors`),
or a thrown transport/fetch failure. -/
inductive FetchResult where
  | success (records : List Duel)
  | queryError (payload : String)
  | transportError (message : String)
deriving DecidableEq, Repr

/-- The component state touched by `searchDuels`: the duel list and the
error banner. -/
structure UiState where
  duels : List Duel
  error : Option String
deriving DecidableEq, Repr

/-- Lines 34-58: `searchDuels` clears the error, then either replaces
the duel list wholesale (success branch, `setDuels(json.data.allDuels)`)
or sets an error message and leaves `duels` untouched (the `json.errors`
branch and the `catch` branch). -/
def searchDuels (s : UiState) (r : FetchResult) : UiState :=
  match r with
  | FetchResult.success records => { duels := records, error := none }
  | FetchResult.queryError payload =>
      { s with error := some ("GraphQL error: " ++ payload) }
  | FetchResult.transportError message =>
      { s with error := some ("Request failed: " ++ message) }

/-- Modelled from the spec's words for Operation B: `wins` is "the count of
records where `winnerAddress` case-insensitively equals `viewpoint`", used
to compare the source's filter against the spec's counting formulation. -/
def winsSpec (duels : List Duel) (player : String) : Nat :=
  duels.countP (fun d =>
    match d.winner with
    | some w => jsToLower w == jsToLower player
    | none => false)

/- Concrete records used by counterexamples and witnesses. -/

/-- A record with two distinct participants and distinct step sequences,
won by neither side (null winner). -/
def duelC2 : Duel :=
  { id := "d2"
    player1 := { address := "0xaa", username := none }
    player2 := { address := "0xbb", username := some "Bravo" }
    shotStepsP1 := some ["5", "6"]
    shotStepsP2 := some ["7"]
    dodgeStepsP1 := some ["1"]
    dodgeStepsP2 := some ["2"]
    winner := none }

/-- A record whose first shot-step sequence is absent. -/
def duelC3 : Duel :=
  { id := "d3"
    player1 := { address := "0xaa", username := none }
    player2 := { address := "0xbb", username := none }
    shotStepsP1 := none
    shotStepsP2 := some ["7"]
    dodgeStepsP1 := some ["1"]
    dodgeStepsP2 := some ["2"]
    winner := none }

/-- A record whose second dodge-step sequence is absent while every other
step sequence is present. -/
def duelC3b : Duel :=
  { id := "d3b"
    player1 := { address := "0xaa", username := none }
    player2 := { address := "0xbb", username := none }
    shotStepsP1 := some ["5"]
    shotStepsP2 := some ["7"]
    dodgeStepsP1 := some ["1"]
    dodgeStepsP2 := none
    winner := none }

/-- A record whose first participant has an empty address string. -/
def duelC4 : Duel :=
  { id := "d4"
    player1 := { address := "", username := none }
    player2 := { address := "0xbb", username := none }
    shotStepsP1 := some ["5"]
    shotStepsP2 := some ["7"]
    dodgeStepsP1 := some ["1"]
    dodgeStepsP2 := some ["2"]
    winner := none }

/-- A record whose winner field holds the empty string (a value that is
present, hence not null/absent, but falsy in JS). -/
def duelC5 : Duel :=
  { id := "d5"
    player1 := { address := "", username := none }
    player2 := { address := "0xbb", username := none }
    shotStepsP1 := some ["5"]
    shotStepsP2 := some ["7"]
    dodgeStepsP1 := some ["1"]
    dodgeStepsP2 := some ["2"]
    winner := some "" }

/-- A record won by its first participant, address written in lowercase. -/
def duelC7 : Duel :=
  { id := "d7"
    player1 := { address := "0xabc", username := some "Alpha" }
    player2 := { address := "0xdef", username := none }
    shotStepsP1 := some ["5"]
    shotStepsP2 := some ["7"]
    dodgeStepsP1 := some ["1"]
    dodgeStepsP2 := some ["2"]
    winner := some "0xabc" }

/-- A record used to instantiate the slot-assignment invariant. -/
def duelC10 : Duel :=
  { id := "d10"
    player1 := { address := "0xaa", username := none }
    player2 := { address := "0xbb", username := none }
    shotStepsP1 := some ["5"]
    shotStepsP2 := some ["7"]
    dodgeStepsP1 := some ["1"]
    dodgeStepsP2 := some ["2"]
    winner := some "0xaa" }

/- Helper lemmas shared across the development. -/

/-- Splitting a list by a Boolean predicate partitions its length. -/
theorem length_filter_split {α : Type} (p : α → Bool) (l : List α) :
    (l.filter p).length + (l.filter (fun a => !(p a))).length = l.length := by
  induction l with
  | nil => rfl
  | cons a t ih =>
    cases h : p a <;> simp only [List.filter_cons, h] <;> simp <;> omega

/-- Both branches of the projection copy the record id. -/
theorem projectRow_duelId (d : Duel) (v : String) :
    (projectRow d v).duelId = d.id := by
  unfold projectRow
  split <;> rfl

/-- Both branches of the projection compute the outcome the same way,
directly from the winner field and the viewpoint. -/
theorem projectRow_outcome (d : Duel) (v : String) :
    (projectRow d v).outcome = outcomeOf d.winner v := by
  unfold projectRow
  split <;> rfl

/-- C1.  For every record collection and any viewpoint address, the wins
and losses computed on lines 61-62 always sum to the number of input
records: the two counts partition the full input collection. -/
theorem wins_add_losses_eq_length (duels : List Duel) (player : String) :
    wins duels player + losses duels player = duels.length := by
  have h : wins duels player ≤ duels.length := List.length_filter_le _ _
  unfold losses
  omega

/-- C1 witness at a concrete input (the theorem's binders are not
propositional, but the instance documents that the statement is not
vacuous). -/
theorem wins_add_losses_eq_length_wit :
    wins [duelC10, duelC2] "0xaa" + losses [duelC10, duelC2] "0xaa" = 2 :=
  wins_add_losses_eq_length [duelC10, duelC2] "0xaa"

/-- C6.  The win tally is the plain count of records whose winner address
case-insensitively equals the viewpoint: it agrees with the spec's
counting formulation, applies no participant-membership precondition
(the per-record test is invariant under replacing both participants),
and every non-win is counted as a loss. -/
theorem wins_counts_direct (duels : List Duel) (player : String) :
    wins duels player = winsSpec duels player ∧
    losses duels player = (duels.filter (fun d => !(isWin d player))).length ∧
    (∀ (d : Duel) (q₁ q₂ : Player),
      isWin { d with player1 := q₁, player2 := q₂ } player = isWin d player) := by
  refine ⟨?_, ?_, ?_⟩
  · have hp : (fun d => isWin d player)
        = (fun d : Duel =>
            match d.winner with
            | some w => jsToLower w == jsToLower player
            | none => false) := by
      funext d
      unfold isWin
      cases d.winner <;> rfl
    rw [winsSpec, List.countP_eq_length_filter, wins, hp]
  · have h := length_filter_split (fun d => isWin d player) duels
    have hle : wins duels player ≤ duels.length := List.length_filter_le _ _
    unfold losses wins at *
    omega
  · intro d q₁ q₂
    rfl

/-- C9.  Any collaborator error (GraphQL error payload or thrown
transport failure) short-circuits to an error message and leaves the
previously held duel list untouched; the duel list is replaced wholesale
only on success, which also clears the error. -/
theorem searchDuels_error_short_circuits
    (s : UiState) (payload message : String) (records : List Duel) :
    (searchDuels s (FetchResult.queryError payload)).duels = s.duels ∧
    (searchDuels s (FetchResult.queryError payload)).error
      = some ("GraphQL error: " ++ payload) ∧
    (searchDuels s (FetchResult.transportError message)).duels = s.duels ∧
    (searchDuels s (FetchResult.transportError message)).error
      = some ("Request failed: " ++ message) ∧
    (searchDuels s (FetchResult.success records)).duels = records ∧
    (searchDuels s (FetchResult.success records)).error = none :=
  ⟨rfl, rfl, rfl, rfl, rfl, rfl⟩

/-- C2 counterexample.  For the record `duelC2` and the viewpoint
`"0xcc"`, which matches neither participant, the projection does NOT
default to the First-slot perspective: `yourShots` is taken from
participantB's sequence, not participantA's, and the opponent label is
participantA's, not participantB's. -/
theorem notParticipant_first_slot_cex :
    isPlayer1 duelC2 "0xcc" = false ∧
    jsToLower "0xcc" ≠ jsToLower duelC2.player2.address ∧
    (projectRow duelC2 "0xcc").yourShots ≠ duelC2.shotStepsP1 ∧
    (projectRow duelC2 "0xcc").yourShots = duelC2.shotStepsP2 ∧
    (projectRow duelC2 "0xcc").opponentLabel ≠ labelOf duelC2.player2 ∧
    (projectRow duelC2 "0xcc").opponentLabel = labelOf duelC2.player1 := by
  decide

/-- C2 (amended).  For every record where the viewpoint matches neither
participant's address (case-insensitively), the projection still exists and
defaults to the Second-slot perspective: `yourSteps` come from
participantB's step sequences and the opponent label/steps from
participantA, exactly as the viewpoint-is-participantB branch assigns
them. -/
theorem notParticipant_second_slot
    (d : Duel) (v : String)
    (hA : jsToLower v ≠ jsToLower d.player1.address)
    (hB : jsToLower v ≠ jsToLower d.player2.address) :
    (projectRow d v).duelId = d.id ∧
    (projectRow d v).yourShots = d.shotStepsP2 ∧
    (projectRow d v).yourDodges = d.dodgeStepsP2 ∧
    (projectRow d v).oppShots = d.shotStepsP1 ∧
    (projectRow d v).oppDodges = d.dodgeStepsP1 ∧
    (projectRow d v).opponentLabel = labelOf d.player1 := by
  have h : isPlayer1 d v = false := by
    unfold isPlayer1
    simp only [beq_eq_false_iff_ne, ne_eq]
    intro he
    exact hA he.symm
  unfold projectRow
  rw [h]
  exact ⟨rfl, rfl, rfl, rfl, rfl, rfl⟩

/-- C2 witness: the amended theorem applied to `duelC2` and the
non-participant viewpoint `"0xcc"`. -/
theorem notParticipant_second_slot_wit :
    jsToLower "0xcc" ≠ jsToLower duelC2.player1.address ∧
    (projectRow duelC2 "0xcc").yourShots = duelC2.shotStepsP2 :=
  ⟨by decide, (notParticipant_second_slot duelC2 "0xcc"
      (by decide) (by decide)).2.1⟩

/-- C3 counterexample.  `duelC3` has an absent first shot-step sequence
and the viewpoint matches participantA, so the selected `yourShots` field
is absent; joining it for display raises a TypeError rather than treating
it as an empty sequence. -/
theorem absent_steps_error_cex :
    duelC3.shotStepsP1 = none ∧
    (projectRow duelC3 "0xaa").yourShots = none ∧
    renderRow duelC3 "0xaa" = Except.error joinError := by
  refine ⟨rfl, by decide, ?_⟩
  rfl

/-- C3 (amended).  An absent step-sequence field selected for display
makes the row rendering fail with a TypeError (the code calls `.join` on
an undefined value with no fallback); only when all four selected
step-sequence fields are present does rendering succeed, joining each
sequence with a comma separator. -/
theorem renderRow_absent_vs_present (d : Duel) (v : String) :
    (((projectRow d v).yourShots = none ∨
      (projectRow d v).yourDodges = none ∨
      (projectRow d v).oppShots = none ∨
      (projectRow d v).oppDodges = none) →
      renderRow d v = Except.error joinError) ∧
    (∀ ys yd os od : List String,
      (projectRow d v).yourShots = some ys →
      (projectRow d v).yourDodges = some yd →
      (projectRow d v).oppShots = some os →
      (projectRow d v).oppDodges = some od →
      renderRow d v = Except.ok
        { duelId := d.id
          opponentLabel := (projectRow d v).opponentLabel
          yourShots := String.intercalate ", " ys
          yourDodges := String.intercalate ", " yd
          oppShots := String.intercalate ", " os
          oppDodges := String.intercalate ", " od
          winnerCell := renderOutcome (projectRow d v).outcome }) := by
  constructor
  · intro h
    unfold renderRow
    cases hys : (projectRow d v).yourShots with
    | none => rfl
    | some ys =>
      cases hyd : (projectRow d v).yourDodges with
      | none => rfl
      | some yd =>
        cases hos : (projectRow d v).oppShots with
        | none => rfl
        | some os =>
          cases hod : (projectRow d v).oppDodges with
          | none => rfl
          | some od =>
            rcases h with h | h | h | h
            · rw [hys] at h
              exact Option.noConfusion h
            · rw [hyd] at h
              exact Option.noConfusion h
            · rw [hos] at h
              exact Option.noConfusion h
            · rw [hod] at h
              exact Option.noConfusion h
  · intro ys yd os od h1 h2 h3 h4
    unfold renderRow
    rw [h1, h2, h3, h4, ← projectRow_duelId d v]
    rfl

/-- C3 witness: the amended theorem applied at concrete records covering
an absent `yourShots` field (`duelC3` from participantA's viewpoint), an
absent `yourDodges` field with every other field present (`duelC3b` from
participantB's viewpoint), and a fully present record where rendering
succeeds (`duelC10`). -/
theorem renderRow_absent_vs_present_wit :
    renderRow duelC3 "0xaa" = Except.error joinError ∧
    renderRow duelC3b "0xbb" = Except.error joinError ∧
    renderRow duelC10 "0xaa"
      = Except.ok
          { duelId := "d10", opponentLabel := "0xbb",
            yourShots := "5", yourDodges := "1",
            oppShots := "7", oppDodges := "2", winnerCell := "You" } :=
  ⟨(renderRow_absent_vs_present duelC3 "0xaa").1 (by decide),
   (renderRow_absent_vs_present duelC3b "0xbb").1 (by decide),
   ((renderRow_absent_vs_present duelC10 "0xaa").2 ["5"] ["1"] ["7"] ["2"]
      (by decide) (by decide) (by decide) (by decide)).trans (by rfl)⟩

/-- C4 counterexample.  With an empty-string viewpoint and a record whose
first participant has the empty address, the resolution spuriously matches
the First participant slot (and the projection then treats the viewpoint as
participantA) instead of reporting that the viewpoint is not a
participant. -/
theorem empty_viewpoint_match_cex :
    duelC4.player1.address = "" ∧
    isPlayer1 duelC4 "" = true ∧
    (projectRow duelC4 "").yourShots = duelC4.shotStepsP1 ∧
    (projectRow duelC4 "").opponentLabel = labelOf duelC4.player2 := by
  decide

/-- C4 (amended).  `resolve(record, "")` matches the First participant slot
exactly when participantA's address lowercases to the empty string: the
code performs a plain lowercase equality with no guard against
empty-to-empty matches, and on such a match the projection treats the empty
viewpoint as participantA.  (The code draws no further distinction: any
non-match is handled as the Second-slot perspective, and no NotParticipant
outcome exists.) -/
theorem isPlayer1_empty_viewpoint (d : Duel) :
    (isPlayer1 d "" = (jsToLower d.player1.address == "")) ∧
    (jsToLower d.player1.address = "" →
      (projectRow d "").yourShots = d.shotStepsP1 ∧
      (projectRow d "").opponentLabel = labelOf d.player2) := by
  constructor
  · rfl
  · intro h
    have hb : isPlayer1 d "" = true := by
      unfold isPlayer1
      rw [h]
      decide
    unfold projectRow
    rw [hb]
    exact ⟨rfl, rfl⟩

/-- C4 witness: the amended theorem applied to `duelC4`, whose first
participant's address is empty. -/
theorem isPlayer1_empty_viewpoint_wit :
    (isPlayer1 duelC4 "" = (jsToLower duelC4.player1.address == "")) ∧
    (projectRow duelC4 "").yourShots = duelC4.shotStepsP1 :=
  ⟨(isPlayer1_empty_viewpoint duelC4).1,
    ((isPlayer1_empty_viewpoint duelC4).2 (by decide)).1⟩

/-- C5 counterexample.  `duelC5.winner` is the empty string: it is present
(not null/absent) and case-insensitively equal to the empty viewpoint, so
the claim demands outcome `You`; the code's `duel.winner && ...` treats the
empty string as falsy and renders the blank (`Undetermined`) outcome
instead. -/
theorem empty_winner_outcome_cex :
    duelC5.winner = some "" ∧
    (projectRow duelC5 "").outcome = Outcome.Undetermined ∧
    (projectRow duelC5 "").outcome ≠ Outcome.You := by
  decide

/-- C5 (amended).  The outcome is computed directly from the winner field
and the viewpoint, identically in both resolution branches (independent of
the resolved role): it is `Undetermined` when `winnerAddress` is null or
absent, and also when it is the (falsy) empty string; for any other
winner value it is `You` exactly when the winner address case-insensitively
equals the viewpoint and `Opponent` otherwise. -/
theorem outcome_direct_comparison (d : Duel) (v : String) :
    ((projectRow d v).outcome = outcomeOf d.winner v) ∧
    (d.winner = none → (projectRow d v).outcome = Outcome.Undetermined) ∧
    (d.winner = some "" → (projectRow d v).outcome = Outcome.Undetermined) ∧
    (∀ w : String, d.winner = some w → w ≠ "" →
      jsToLower w = jsToLower v →
      (projectRow d v).outcome = Outcome.You) ∧
    (∀ w : String, d.winner = some w → w ≠ "" →
      jsToLower w ≠ jsToLower v →
      (projectRow d v).outcome = Outcome.Opponent) := by
  refine ⟨projectRow_outcome d v, ?_, ?_, ?_, ?_⟩
  · intro h
    rw [projectRow_outcome, h]
    rfl
  · intro h
    rw [projectRow_outcome, h]
    rfl
  · intro w hw hne heq
    rw [projectRow_outcome, hw]
    unfold outcomeOf
    simp [hne, heq]
  · intro w hw hne hneq
    rw [projectRow_outcome, hw]
    unfold outcomeOf
    simp [hne, hneq]

/-- C5 witness: the amended theorem's `You` case applied to `duelC7`
(winner `"0xabc"`) with the differently-cased viewpoint `"0xABC"`. -/
theorem outcome_direct_comparison_wit :
    (projectRow duelC7 "0xABC").outcome = Outcome.You :=
  (outcome_direct_comparison duelC7 "0xABC").2.2.2.1 "0xabc"
    (by decide) (by decide) (by decide)

/-- C7.  Viewpoint resolution (and with it the whole per-record
projection) is invariant under letter case: two viewpoints that agree
after lowercasing resolve identically and produce identical projections,
because both sides of every comparison are lowercased before exact
equality, with no trimming or other normalization. -/
theorem resolution_case_invariant
    (d : Duel) (v₁ v₂ : String) (h : jsToLower v₁ = jsToLower v₂) :
    isPlayer1 d v₁ = isPlayer1 d v₂ ∧ projectRow d v₁ = projectRow d v₂ := by
  have hr : isPlayer1 d v₁ = isPlayer1 d v₂ := by
    unfold isPlayer1
    rw [h]
  refine ⟨hr, ?_⟩
  have ho : outcomeOf d.winner v₁ = outcomeOf d.winner v₂ := by
    unfold outcomeOf
    cases d.winner with
    | none => rfl
    | some w => rw [h]
  unfold projectRow
  rw [hr, ho]

/-- C7 witness: the theorem applied to `duelC7` (participant address
`"0xabc"`) and the viewpoints `"0xABC"` and `"0xabc"`. -/
theorem resolution_case_invariant_wit :
    jsToLower "0xABC" = jsToLower "0xabc" ∧
    isPlayer1 duelC7 "0xABC" = isPlayer1 duelC7 "0xabc" :=
  ⟨by decide, (resolution_case_invariant duelC7 "0xABC" "0xabc" (by decide)).1⟩

/-- C8.  `projectAll` is deterministic, order-preserving and idempotent:
as a pure function, recomputing it on the same records and viewpoint
yields a structurally identical sequence; the output has exactly one
projection per input record, and the i-th output is the projection of the
i-th input. -/
theorem projectAll_order_deterministic (duels : List Duel) (v : String) :
    projectAll duels v = projectAll duels v ∧
    (projectAll duels v).length = duels.length ∧
    (∀ i : Nat, (projectAll duels v)[i]?
      = Option.map (fun d => projectRow d v) duels[i]?) := by
  refine ⟨rfl, ?_, ?_⟩
  · unfold projectAll
    exact List.length_map _ _
  · intro i
    unfold projectAll
    exact List.getElem?_map _ duels i

/-- C10.  The projection never mixes participants across slots: the four
step sequences and the opponent label are drawn wholly from one
participant on the "your" side and wholly from the other on the
"opponent" side; and whenever the lowercased viewpoint differs from
participantA's lowercased address — including when the viewpoint matches
neither participant — the projection is built from the Second-slot
(participantB-as-you) perspective. -/
theorem projection_no_slot_mixing (d : Duel) (v : String) :
    (((projectRow d v).yourShots = d.shotStepsP1 ∧
      (projectRow d v).yourDodges = d.dodgeStepsP1 ∧
      (projectRow d v).oppShots = d.shotStepsP2 ∧
      (projectRow d v).oppDodges = d.dodgeStepsP2 ∧
      (projectRow d v).opponentLabel = labelOf d.player2) ∨
     ((projectRow d v).yourShots = d.shotStepsP2 ∧
      (projectRow d v).yourDodges = d.dodgeStepsP2 ∧
      (projectRow d v).oppShots = d.shotStepsP1 ∧
      (projectRow d v).oppDodges = d.dodgeStepsP1 ∧
      (projectRow d v).opponentLabel = labelOf d.player1)) ∧
    (jsToLower v ≠ jsToLower d.player1.address →
      ((projectRow d v).yourShots = d.shotStepsP2 ∧
       (projectRow d v).yourDodges = d.dodgeStepsP2 ∧
       (projectRow d v).oppShots = d.shotStepsP1 ∧
       (projectRow d v).oppDodges = d.dodgeStepsP1 ∧
       (projectRow d v).opponentLabel = labelOf d.player1)) := by
  cases hb : isPlayer1 d v with
  | true =>
    constructor
    · left
      unfold projectRow
      rw [hb]
      exact ⟨rfl, rfl, rfl, rfl, rfl⟩
    · intro hne
      exfalso
      apply hne
      have := hb
      unfold isPlayer1 at this
      exact (beq_iff_eq.mp this).symm
  | false =>
    have hrow :
        (projectRow d v).yourShots = d.shotStepsP2 ∧
        (projectRow d v).yourDodges = d.dodgeStepsP2 ∧
        (projectRow d v).oppShots = d.shotStepsP1 ∧
        (projectRow d v).oppDodges = d.dodgeStepsP1 ∧
        (projectRow d v).opponentLabel = labelOf d.player1 := by
      unfold projectRow
      rw [hb]
      exact ⟨rfl, rfl, rfl, rfl, rfl⟩
    exact ⟨Or.inr hrow, fun _ => hrow⟩

/-- C10 witness: the theorem applied to `duelC10` and the non-participant
viewpoint `"0xzz"`, whose lowercasing differs from participantA's
address. -/
theorem projection_no_slot_mixing_wit :
    jsToLower "0xzz" ≠ jsToLower duelC10.player1.address ∧
    (projectRow duelC10 "0xzz").yourShots = duelC10.shotStepsP2 :=
  ⟨by decide, ((projection_no_slot_mixing duelC10 "0xzz").2 (by decide)).1⟩
